import Mathlib

/-!
Verification of the scene-timing and video-compositing engine of
src/video_editor.py.

The embedding works over exact rationals (the source uses Python floats; every
quantity the claims mention is a small decimal, exactly representable in both).
External decoder and encoder calls (pydub, moviepy, ffmpeg) are modelled by
oracle fields recording whether the call succeeds and what it returns; the
control flow around those calls is translated line by line from the source.
-/

namespace VideoEditor

/-- Outcome oracle for one narration audio file, as seen by build_video:
whether os.path.exists holds for the path, what each decoder attempt would
return (none models the decoder raising), and whether the later
AudioFileClip load during scene compositing succeeds. -/
structure AudioFile where
  pathExists : Bool
  pydub : Option ℚ
  moviepy2 : Option ℚ
  moviepy1 : Option ℚ
  loadOk : Bool
deriving Repr, DecidableEq

/-- One scene of build_video's input: an image path (modelled by whether it
exists) and the optional scene audio entry from the scene_audio dict. -/
structure Scene where
  imageExists : Bool
  audio : Option AudioFile
deriving Repr, DecidableEq

/-- _get_audio_duration_seconds: pydub measurement with every exception
absorbed to 0.0 (src/video_editor.py lines 19-25). -/
def _get_audio_duration_seconds (pydub : Option ℚ) : ℚ :=
  match pydub with
  | some d => d
  | none => 0

/-- _estimate_scene_duration (src/video_editor.py lines 28-51): start from
min_seconds; when the audio path is present and exists, prefer the pydub
measurement when positive, otherwise fall through moviepy 2.x then moviepy
1.x, and finally to max min_seconds (head_pad + tail_pad). -/
def _estimate_scene_duration (audio : Option AudioFile)
    (min_seconds head_pad tail_pad : ℚ) : ℚ :=
  match audio with
  | none => min_seconds
  | some a =>
    if a.pathExists then
      let d := _get_audio_duration_seconds a.pydub
      if 0 < d then
        max min_seconds (d + head_pad + tail_pad)
      else
        match a.moviepy2 with
        | some d2 => max min_seconds (d2 + head_pad + tail_pad)
        | none =>
          match a.moviepy1 with
          | some d1 => max min_seconds (d1 + head_pad + tail_pad)
          | none => max min_seconds (head_pad + tail_pad)
    else min_seconds

/-- One entry of the timings list built at src/video_editor.py lines 204-211.
The image and audio path fields are modelled by the facts the claims need:
whether the image exists and whether the audio field is non-null. -/
structure TimingEntry where
  scene : ℕ
  start : ℚ
  endTime : ℚ
  duration : ℚ
  imageExists : Bool
  audioPresent : Bool
deriving Repr, DecidableEq

/-- audio_path and os.path.exists(audio_path): the condition guarding both
narration loading and the non-null audio field of a timing entry. -/
def audioPresent (s : Scene) : Bool :=
  match s.audio with
  | some a => a.pathExists
  | none => false

/-- A narration track is appended to audio_tracks only on the moviepy paths,
and only when the audio path exists and AudioFileClip succeeds
(src/video_editor.py lines 143-175 and 192-202). -/
def audioLoaded (use_moviepy : Bool) (s : Scene) : Bool :=
  use_moviepy && (match s.audio with
    | some a => a.pathExists && a.loadOk
    | none => false)

/-- The per-scene loop of build_video (src/video_editor.py lines 103-213),
carrying idx (0-based) and current_start. On the moviepy paths a missing
image file defeats every ImageClip fallback attempt and the build raises
(lines 122-131 / 180-182), modelled as an error carrying the scene number;
otherwise the loop appends a timing entry, appends the narration start
offset to audio_tracks when the narration loads, and advances
current_start by duration minus (crossfade_sec if crossfade_sec > 0 else 0)
(line 213). Returns (timings, audio-track start offsets, final
current_start). -/
def sceneLoop (use_moviepy : Bool) (crossfade_sec min_scene_seconds head_pad tail_pad : ℚ) :
    List Scene → ℕ → ℚ → Except ℕ (List TimingEntry × List ℚ × ℚ)
  | [], _, current_start => .ok ([], [], current_start)
  | s :: rest, idx, current_start =>
    let duration := _estimate_scene_duration s.audio min_scene_seconds head_pad tail_pad
    if use_moviepy && !s.imageExists then
      .error (idx + 1)
    else
      match sceneLoop use_moviepy crossfade_sec min_scene_seconds head_pad tail_pad rest
          (idx + 1)
          (current_start + duration - (if 0 < crossfade_sec then crossfade_sec else 0)) with
      | .error e => .error e
      | .ok (ts, ats, total) =>
        .ok ({ scene := idx + 1, start := current_start,
               endTime := current_start + duration, duration := duration,
               imageExists := s.imageExists, audioPresent := audioPresent s } :: ts,
             (if audioLoaded use_moviepy s then [current_start] else []) ++ ats,
             total)

/-- The render backend actually used by a successful build. -/
inductive Backend
  | primaryV2
  | primaryV1
  | rawTool
deriving Repr, DecidableEq

/-- The ways build_video raises. -/
inductive BuildError
  | imageClipFailed (scene_num : ℕ)
  | concatFailed
  | noBackend
  | allWritesFailed (msg : String)
  | segmentRenderFailed (scene_num : ℕ)
deriving Repr, DecidableEq

/-- What audio the written video carries. -/
inductive FinalAudio
  | silent
  | narrationOnly
  | narrationWithMusic
  | muxedPerScene
deriving Repr, DecidableEq

/-- The observable outcome of a successful build: the returned dict's
timings and duration, plus which backend ran, what audio was attached,
whether the background-music file was opened, and which write-ladder
attempt produced the file. -/
structure BuildResult where
  backend : Backend
  timings : List TimingEntry
  duration : ℚ
  finalAudio : FinalAudio
  bgMusicOpened : Bool
  writeAttemptUsed : ℕ
  writeAttemptsMade : ℕ
deriving Repr, DecidableEq

/-- The write_videofile ladder (src/video_editor.py lines 296-342): the
optimized-preset call, then the basic call, then the minimal call, each
modelled by an oracle (none = succeeds, some msg = raises msg). Returns
how many attempts ran and either the successful attempt's number or the
final error, whose message wraps the last underlying error. -/
def write_videofile_ladder (w1 w2 w3 : Option String) : ℕ × Except String ℕ :=
  match w1 with
  | none => (1, .ok 1)
  | some _ =>
    match w2 with
    | none => (2, .ok 2)
    | some _ =>
      match w3 with
      | none => (3, .ok 3)
      | some e3 => (3, .error ("All video write attempts failed. Last error: " ++ e3))

/-- Composition parameters of one build_video call (the timing- and
audio-relevant subset; bg_music_path is modelled by whether it was supplied
and whether os.path.exists holds for it). -/
structure BuildParams where
  crossfade_sec : ℚ
  min_scene_seconds : ℚ
  head_pad : ℚ
  tail_pad : ℚ
  bg_music_supplied : Bool
  bg_music_exists : Bool
deriving Repr, DecidableEq

/-- build_video (src/video_editor.py lines 54-437). Backend detection first
(moviepy 2.x import, then moviepy 1.x, else the ffmpeg-only path); then the
scene loop; then, on the moviepy paths, clip concatenation (which raises
when the clip list is empty), audio composition — background music is
opened only inside the audio_tracks branch (lines 230-263 / 276-294) — and
the write ladder. On the ffmpeg-only path the ffmpeg binary is looked up
after the loop (lines 371-379) and each per-scene segment render raises on
a missing image (subprocess check=True, line 405). -/
def build_video (moviepy2_available moviepy1_available ffmpeg_available : Bool)
    (scenes : List Scene) (p : BuildParams) (w1 w2 w3 : Option String) :
    Except BuildError BuildResult :=
  let use_moviepy := moviepy2_available || moviepy1_available
  match sceneLoop use_moviepy p.crossfade_sec p.min_scene_seconds p.head_pad p.tail_pad
      scenes 0 0 with
  | .error n => .error (.imageClipFailed n)
  | .ok (timings, audio_tracks, total) =>
    if use_moviepy then
      if scenes.isEmpty then .error .concatFailed
      else
        let finalAudio :=
          if audio_tracks.isEmpty then FinalAudio.silent
          else if p.bg_music_supplied && p.bg_music_exists then FinalAudio.narrationWithMusic
          else FinalAudio.narrationOnly
        match write_videofile_ladder w1 w2 w3 with
        | (_, .error msg) => .error (.allWritesFailed msg)
        | (made, .ok used) =>
          .ok { backend := if moviepy2_available then .primaryV2 else .primaryV1,
                timings := timings, duration := total, finalAudio := finalAudio,
                bgMusicOpened := !audio_tracks.isEmpty && (p.bg_music_supplied && p.bg_music_exists),
                writeAttemptUsed := used, writeAttemptsMade := made }
    else if ffmpeg_available then
      match timings.find? (fun t => !t.imageExists) with
      | some t => .error (.segmentRenderFailed t.scene)
      | none =>
        if timings.isEmpty then .error .concatFailed
        else
          .ok { backend := .rawTool, timings := timings, duration := total,
                finalAudio := .muxedPerScene, bgMusicOpened := false,
                writeAttemptUsed := 0, writeAttemptsMade := 0 }
    else .error .noBackend

/-- Pan directions of the Motion Generator. -/
inductive PanDirection
  | left
  | right
  | up
  | down
deriving Repr, DecidableEq

/-- Modelled from the spec: the Motion Generator (Ken-Burns pan/zoom engine)
is not present under src/. Spec 4.2: when panDirection is auto the pan
direction is deterministically cycled by sceneIndex mod 4, in the order
left, right, up, down, repeating. -/
def autoPanDirection (sceneIndex : ℕ) : PanDirection :=
  match sceneIndex % 4 with
  | 0 => .left
  | 1 => .right
  | 2 => .up
  | _ => .down

/-- An audio file that exists, measures d seconds via pydub, and loads fine. -/
def audioMeasured (d : ℚ) : AudioFile :=
  { pathExists := true, pydub := some d, moviepy2 := none, moviepy1 := none, loadOk := true }

/-- The spec's concrete 3-scene scenario: audio durations 4.0s, missing, 6.0s. -/
def c1Scenes : List Scene :=
  [{ imageExists := true, audio := some (audioMeasured 4) },
   { imageExists := true, audio := none },
   { imageExists := true, audio := some (audioMeasured 6) }]

/-- The spec's concrete parameters: minSceneSeconds 3.0, pads 0.15, crossfade 0.3. -/
def c1Params : BuildParams :=
  { crossfade_sec := 3/10, min_scene_seconds := 3, head_pad := 3/20, tail_pad := 3/20,
    bg_music_supplied := false, bg_music_exists := false }

/-- What build_video actually returns on the spec's concrete scenario. -/
def c1Ok : BuildResult :=
  { backend := .primaryV2,
    timings := [{ scene := 1, start := 0, endTime := 43/10, duration := 43/10,
                  imageExists := true, audioPresent := true },
                { scene := 2, start := 4, endTime := 7, duration := 3,
                  imageExists := true, audioPresent := false },
                { scene := 3, start := 67/10, endTime := 13, duration := 63/10,
                  imageExists := true, audioPresent := true }],
    duration := 127/10, finalAudio := .narrationOnly, bgMusicOpened := false,
    writeAttemptUsed := 1, writeAttemptsMade := 1 }

/-- Two silent scenes, both images present. -/
def twoSilentScenes : List Scene :=
  [{ imageExists := true, audio := none }, { imageExists := true, audio := none }]

/-- Parameters with crossfade 2 exceeding minSceneSeconds 1. -/
def bigCrossfadeParams : BuildParams :=
  { crossfade_sec := 2, min_scene_seconds := 1, head_pad := 0, tail_pad := 0,
    bg_music_supplied := false, bg_music_exists := false }

/-- A scene list whose second scene's image path does not exist. -/
def missingImageScenes : List Scene :=
  [{ imageExists := true, audio := none },
   { imageExists := false, audio := none },
   { imageExists := true, audio := none }]

/-- One scene whose narration exists and measures 5s but whose AudioFileClip
load fails at compositing time. -/
def loadFailScenes : List Scene :=
  [{ imageExists := true,
     audio := some { pathExists := true, pydub := some 5, moviepy2 := none,
                     moviepy1 := none, loadOk := false } }]

/-- Parameters supplying a readable background-music file. -/
def bgMusicParams : BuildParams :=
  { crossfade_sec := 3/10, min_scene_seconds := 2, head_pad := 3/20, tail_pad := 3/20,
    bg_music_supplied := true, bg_music_exists := true }

/-- Two scenes with no audio at all and one whose audio path does not exist. -/
def noAudioScenes : List Scene :=
  [{ imageExists := true, audio := none },
   { imageExists := true,
     audio := some { pathExists := false, pydub := none, moviepy2 := none,
                     moviepy1 := none, loadOk := true } }]

/-! ## Lemmas about the Duration Estimator -/

/-- Every branch of the estimator returns either min_seconds itself or a
max with min_seconds on the left. -/
lemma le_estimate (audio : Option AudioFile) (minS hp tp : ℚ) :
    minS ≤ _estimate_scene_duration audio minS hp tp := by
  rcases audio with _ | a
  · simp [_estimate_scene_duration]
  · rcases ha : a.pathExists with _ | _
    · simp [_estimate_scene_duration, ha]
    · rcases h2 : a.moviepy2 with _ | d2 <;> rcases h1 : a.moviepy1 with _ | d1 <;>
        simp [_estimate_scene_duration, ha, h2, h1] <;> split <;> simp [le_max_left]

/-! ## Claim theorems C3 and C4 -/

/-- Claim C3: the Duration Estimator's result is at least minSeconds for
every input; it returns exactly minSeconds when the audio path is absent or
the file does not exist; and when a decoder successfully measures the audio
(pydub with a positive result, else moviepy 2.x, else moviepy 1.x) it
returns max(minSeconds, measuredDuration + headPad + tailPad). -/
theorem C3_estimator_contract (audio : Option AudioFile) (minS hp tp : ℚ)
    (hmin : 0 < minS) (hhp : 0 ≤ hp) (htp : 0 ≤ tp) :
    minS ≤ _estimate_scene_duration audio minS hp tp ∧
    (audio = none → _estimate_scene_duration audio minS hp tp = minS) ∧
    (∀ a, audio = some a → a.pathExists = false →
      _estimate_scene_duration audio minS hp tp = minS) ∧
    (∀ a d, audio = some a → a.pathExists = true → a.pydub = some d → 0 < d →
      _estimate_scene_duration audio minS hp tp = max minS (d + hp + tp)) ∧
    (∀ a d2, audio = some a → a.pathExists = true →
      _get_audio_duration_seconds a.pydub ≤ 0 → a.moviepy2 = some d2 →
      _estimate_scene_duration audio minS hp tp = max minS (d2 + hp + tp)) ∧
    (∀ a d1, audio = some a → a.pathExists = true →
      _get_audio_duration_seconds a.pydub ≤ 0 → a.moviepy2 = none → a.moviepy1 = some d1 →
      _estimate_scene_duration audio minS hp tp = max minS (d1 + hp + tp)) := by
  refine ⟨le_estimate audio minS hp tp, ?_, ?_, ?_, ?_, ?_⟩
  · rintro rfl; rfl
  · rintro a rfl ha; simp [_estimate_scene_duration, ha]
  · rintro a d rfl ha hd hdpos
    simp [_estimate_scene_duration, ha, _get_audio_duration_seconds, hd, hdpos]
  · rintro a d2 rfl ha hple h2
    simp [_estimate_scene_duration, ha, h2, not_lt.mpr hple]
  · rintro a d1 rfl ha hple h2 h1
    simp [_estimate_scene_duration, ha, h2, h1, not_lt.mpr hple]

/-- Witness for C3 at concrete inputs. -/
theorem C3_estimator_contract_witness :
    (3 : ℚ) ≤ _estimate_scene_duration (some (audioMeasured 4)) 3 (3/20) (3/20) ∧
    _estimate_scene_duration (some (audioMeasured 4)) 3 (3/20) (3/20) =
      max 3 (4 + 3/20 + 3/20) := by
  have h := C3_estimator_contract (some (audioMeasured 4)) 3 (3/20) (3/20)
    (by norm_num) (by norm_num) (by norm_num)
  exact ⟨h.1, h.2.2.2.1 (audioMeasured 4) 4 rfl rfl rfl (by norm_num)⟩

/-- Claim C4: the Duration Estimator is a total function (the embedding
returns a plain rational, never an exception value), and when the audio
file exists but every decode attempt fails — pydub absorbed to a
non-positive value, moviepy 2.x and 1.x both raising — it returns the
fallback max(minSeconds, headPad + tailPad). -/
theorem C4_estimator_decode_fallback (a : AudioFile) (minS hp tp : ℚ)
    (hex : a.pathExists = true)
    (hpy : _get_audio_duration_seconds a.pydub ≤ 0)
    (h2 : a.moviepy2 = none) (h1 : a.moviepy1 = none) :
    _estimate_scene_duration (some a) minS hp tp = max minS (hp + tp) := by
  simp [_estimate_scene_duration, hex, h2, h1, not_lt.mpr hpy]

/-- Witness for C4: a file that exists but defeats all three decoders. -/
theorem C4_estimator_decode_fallback_witness :
    _estimate_scene_duration
      (some { pathExists := true, pydub := none, moviepy2 := none,
              moviepy1 := none, loadOk := true }) 2 (3/20) (3/20) = max 2 (3/20 + 3/20) :=
  C4_estimator_decode_fallback _ 2 (3/20) (3/20) rfl (by norm_num [_get_audio_duration_seconds])
    rfl rfl

/-! ## Lemmas about the scene loop -/

/-- The loop succeeds when no scene trips the moviepy missing-image abort. -/
lemma sceneLoop_isOk (um : Bool) (cf minS hp tp : ℚ) :
    ∀ (scenes : List Scene), (∀ s ∈ scenes, (um && !s.imageExists) = false) →
    ∀ (idx : ℕ) (cur : ℚ),
      ∃ out, sceneLoop um cf minS hp tp scenes idx cur = .ok out := by
  intro scenes
  induction scenes with
  | nil => exact fun _ idx cur => ⟨([], [], cur), rfl⟩
  | cons s rest ih =>
    intro h idx cur
    have hs : (um && !s.imageExists) = false := h s (by simp)
    obtain ⟨⟨ts, ats, total⟩, hout⟩ :=
      ih (fun x hx => h x (by simp [hx])) (idx + 1)
        (cur + _estimate_scene_duration s.audio minS hp tp - (if 0 < cf then cf else 0))
    refine ⟨({ scene := idx + 1, start := cur,
               endTime := cur + _estimate_scene_duration s.audio minS hp tp,
               duration := _estimate_scene_duration s.audio minS hp tp,
               imageExists := s.imageExists, audioPresent := audioPresent s } :: ts,
              (if audioLoaded um s then [cur] else []) ++ ats, total), ?_⟩
    simp only [sceneLoop, hs, Bool.false_eq_true, if_false, hout]

/-- The final current_start returned by the loop. -/
lemma sceneLoop_total (um : Bool) (cf minS hp tp : ℚ) :
    ∀ (scenes : List Scene) (idx : ℕ) (cur : ℚ) (ts : List TimingEntry)
      (ats : List ℚ) (total : ℚ),
      sceneLoop um cf minS hp tp scenes idx cur = .ok (ts, ats, total) →
      total = cur + (scenes.map fun s => _estimate_scene_duration s.audio minS hp tp).sum
        - (if 0 < cf then cf else 0) * scenes.length := by
  intro scenes
  induction scenes with
  | nil =>
    intro idx cur ts ats total h
    simp only [sceneLoop, Except.ok.injEq, Prod.mk.injEq] at h
    obtain ⟨rfl, rfl, rfl⟩ := h
    simp
  | cons s rest ih =>
    intro idx cur ts ats total h
    simp only [sceneLoop] at h
    split at h
    · exact absurd h (by simp)
    · split at h
      · exact absurd h (by simp)
      · rename_i ts' ats' total' hrec
        simp only [Except.ok.injEq, Prod.mk.injEq] at h
        obtain ⟨rfl, rfl, rfl⟩ := h
        have ht := ih _ _ _ _ _ hrec
        rw [ht]
        simp only [List.map_cons, List.sum_cons, List.length_cons]
        push_cast
        ring

/-- The loop emits one timing entry per scene. -/
lemma sceneLoop_length (um : Bool) (cf minS hp tp : ℚ) :
    ∀ (scenes : List Scene) (idx : ℕ) (cur : ℚ) (ts : List TimingEntry)
      (ats : List ℚ) (total : ℚ),
      sceneLoop um cf minS hp tp scenes idx cur = .ok (ts, ats, total) →
      ts.length = scenes.length := by
  intro scenes
  induction scenes with
  | nil =>
    intro idx cur ts ats total h
    simp only [sceneLoop, Except.ok.injEq, Prod.mk.injEq] at h
    obtain ⟨rfl, rfl, rfl⟩ := h
    rfl
  | cons s rest ih =>
    intro idx cur ts ats total h
    simp only [sceneLoop] at h
    split at h
    · exact absurd h (by simp)
    · split at h
      · exact absurd h (by simp)
      · rename_i ts' ats' total' hrec
        simp only [Except.ok.injEq, Prod.mk.injEq] at h
        obtain ⟨rfl, rfl, rfl⟩ := h
        simp [ih _ _ _ _ _ hrec]

/-- Start offset of the i-th emitted entry: the running start accumulated
over the previous scenes, minus the crossfade step once per previous scene
(including the very first scene's advance). -/
lemma sceneLoop_get_start (um : Bool) (cf minS hp tp : ℚ) :
    ∀ (scenes : List Scene) (idx : ℕ) (cur : ℚ) (ts : List TimingEntry)
      (ats : List ℚ) (total : ℚ),
      sceneLoop um cf minS hp tp scenes idx cur = .ok (ts, ats, total) →
      ∀ (i : ℕ) (hi : i < ts.length),
        (ts.get ⟨i, hi⟩).start =
          cur + ((scenes.take i).map fun s => _estimate_scene_duration s.audio minS hp tp).sum
            - (if 0 < cf then cf else 0) * i := by
  intro scenes
  induction scenes with
  | nil =>
    intro idx cur ts ats total h
    simp only [sceneLoop, Except.ok.injEq, Prod.mk.injEq] at h
    obtain ⟨rfl, rfl, rfl⟩ := h
    intro i hi
    exact absurd hi (by simp)
  | cons s rest ih =>
    intro idx cur ts ats total h
    simp only [sceneLoop] at h
    split at h
    · exact absurd h (by simp)
    · split at h
      · exact absurd h (by simp)
      · rename_i ts' ats' total' hrec
        simp only [Except.ok.injEq, Prod.mk.injEq] at h
        obtain ⟨rfl, rfl, rfl⟩ := h
        intro i hi
        match i with
        | 0 => simp
        | Nat.succ j =>
          have hj : j < ts'.length := by
            simpa using Nat.lt_of_succ_lt_succ hi
          have := ih _ _ _ _ _ hrec j hj
          simp only [List.get_cons_succ]
          rw [this]
          simp only [List.take_succ_cons, List.map_cons, List.sum_cons]
          push_cast
          ring

/-- Facts holding of every emitted timing entry: end equals start plus
duration, the duration is at least min_scene_seconds, and (when the
crossfade step does not exceed min_scene_seconds) the start never drops
below the initial running start. -/
lemma sceneLoop_mem (um : Bool) (cf minS hp tp : ℚ) :
    ∀ (scenes : List Scene) (idx : ℕ) (cur : ℚ) (ts : List TimingEntry)
      (ats : List ℚ) (total : ℚ),
      sceneLoop um cf minS hp tp scenes idx cur = .ok (ts, ats, total) →
      ∀ e ∈ ts, e.endTime = e.start + e.duration ∧ minS ≤ e.duration ∧
        ((if 0 < cf then cf else 0) ≤ minS → cur ≤ e.start) := by
  intro scenes
  induction scenes with
  | nil =>
    intro idx cur ts ats total h
    simp only [sceneLoop, Except.ok.injEq, Prod.mk.injEq] at h
    obtain ⟨rfl, rfl, rfl⟩ := h
    simp
  | cons s rest ih =>
    intro idx cur ts ats total h
    simp only [sceneLoop] at h
    split at h
    · exact absurd h (by simp)
    · split at h
      · exact absurd h (by simp)
      · rename_i ts' ats' total' hrec
        simp only [Except.ok.injEq, Prod.mk.injEq] at h
        obtain ⟨rfl, rfl, rfl⟩ := h
        intro e he
        rcases List.mem_cons.mp he with rfl | he'
        · exact ⟨rfl, le_estimate s.audio minS hp tp, fun _ => le_refl _⟩
        · refine ⟨(ih _ _ _ _ _ hrec e he').1, (ih _ _ _ _ _ hrec e he').2.1, fun hcs => ?_⟩
          have hstep : cur ≤ cur + _estimate_scene_duration s.audio minS hp tp
              - (if 0 < cf then cf else 0) := by
            have := le_estimate s.audio minS hp tp
            linarith
          exact le_trans hstep ((ih _ _ _ _ _ hrec e he').2.2 hcs)

/-- When no scene's narration loads, audio_tracks comes back empty. -/
lemma sceneLoop_tracks_nil (um : Bool) (cf minS hp tp : ℚ) :
    ∀ (scenes : List Scene) (idx : ℕ) (cur : ℚ) (ts : List TimingEntry)
      (ats : List ℚ) (total : ℚ),
      sceneLoop um cf minS hp tp scenes idx cur = .ok (ts, ats, total) →
      (∀ s ∈ scenes, audioLoaded um s = false) → ats = [] := by
  intro scenes
  induction scenes with
  | nil =>
    intro idx cur ts ats total h _
    simp only [sceneLoop, Except.ok.injEq, Prod.mk.injEq] at h
    obtain ⟨rfl, rfl, rfl⟩ := h
    rfl
  | cons s rest ih =>
    intro idx cur ts ats total h hload
    simp only [sceneLoop] at h
    split at h
    · exact absurd h (by simp)
    · split at h
      · exact absurd h (by simp)
      · rename_i ts' ats' total' hrec
        simp only [Except.ok.injEq, Prod.mk.injEq] at h
        obtain ⟨rfl, rfl, rfl⟩ := h
        have h1 : audioLoaded um s = false := hload s (by simp)
        have h2 := ih _ _ _ _ _ hrec (fun x hx => hload x (by simp [hx]))
        simp [h1, h2]

/-- On a moviepy path, any scene with a missing image aborts the loop. -/
lemma sceneLoop_error_of_missing (um : Bool) (cf minS hp tp : ℚ) (hum : um = true) :
    ∀ (scenes : List Scene), (∃ s ∈ scenes, s.imageExists = false) →
    ∀ (idx : ℕ) (cur : ℚ),
      ∃ n, sceneLoop um cf minS hp tp scenes idx cur = .error n := by
  intro scenes
  induction scenes with
  | nil => rintro ⟨s, hs, -⟩; exact absurd hs (by simp)
  | cons s rest ih =>
    rintro ⟨x, hx, hxmiss⟩ idx cur
    rcases List.mem_cons.mp hx with rfl | hx'
    · exact ⟨idx + 1, by simp [sceneLoop, hum, hxmiss]⟩
    · by_cases hs : s.imageExists = false
      · exact ⟨idx + 1, by simp [sceneLoop, hum, hs]⟩
      · simp only [Bool.not_eq_false] at hs
        obtain ⟨n, hn⟩ := ih ⟨x, hx', hxmiss⟩ (idx + 1)
          (cur + _estimate_scene_duration s.audio minS hp tp - (if 0 < cf then cf else 0))
        exact ⟨n, by simp [sceneLoop, hs, hn]⟩

/-! ## Lemmas about build_video -/

/-- Inversion of a successful build: whichever backend ran, the returned
timings and duration are exactly the scene loop's, and the backend follows
the fixed detection order moviepy 2.x, moviepy 1.x, ffmpeg. -/
lemma build_video_ok_inv (v2 v1 ff : Bool) (scenes : List Scene) (p : BuildParams)
    (w1 w2 w3 : Option String) (r : BuildResult)
    (hb : build_video v2 v1 ff scenes p w1 w2 w3 = .ok r) :
    (∃ ats, sceneLoop (v2 || v1) p.crossfade_sec p.min_scene_seconds p.head_pad p.tail_pad
        scenes 0 0 = .ok (r.timings, ats, r.duration)) ∧
    r.backend = (if v2 then .primaryV2 else if v1 then .primaryV1 else .rawTool) := by
  simp only [build_video] at hb
  cases hloop : sceneLoop (v2 || v1) p.crossfade_sec p.min_scene_seconds p.head_pad p.tail_pad
      scenes 0 0 with
  | error n => rw [hloop] at hb; simp at hb
  | ok out =>
    obtain ⟨ts, ats, total⟩ := out
    rw [hloop] at hb
    by_cases hum : (v2 || v1) = true
    · rw [hum] at hb
      simp only [if_true] at hb
      by_cases hne : scenes.isEmpty
      · simp [hne] at hb
      · simp only [hne, Bool.false_eq_true, if_false] at hb
        rcases hl : write_videofile_ladder w1 w2 w3 with ⟨made, res⟩
        rw [hl] at hb
        rcases res with msg | used
        · simp at hb
        · simp only [Except.ok.injEq] at hb
          subst hb
          rcases hv2 : v2 with _ | _
          · have hv1 : v1 = true := by simpa [hv2] using hum
            exact ⟨⟨ats, by simpa using hloop⟩, by simp [hv1]⟩
          · exact ⟨⟨ats, by simpa using hloop⟩, by simp⟩
    · simp only [Bool.not_eq_true] at hum
      rw [hum] at hb
      simp only [Bool.false_eq_true, if_false] at hb
      rcases hff : ff with _ | _
      · rw [hff] at hb; simp at hb
      · rw [hff] at hb
        simp only [if_true] at hb
        cases hf : ts.find? (fun t => !t.imageExists) with
        | some t => rw [hf] at hb; simp at hb
        | none =>
          rw [hf] at hb
          by_cases hte : ts.isEmpty
          · simp [hte] at hb
          · simp only [hte, Bool.false_eq_true, if_false, Except.ok.injEq] at hb
            subst hb
            have hv2 : v2 = false := by
              rcases Bool.or_eq_false_iff.mp hum with ⟨h, -⟩; exact h
            have hv1 : v1 = false := by
              rcases Bool.or_eq_false_iff.mp hum with ⟨-, h⟩; exact h
            exact ⟨⟨ats, by simpa using hloop⟩, by simp [hv2, hv1]⟩

/-- A scene whose audio path is absent or missing never contributes a
narration track. -/
lemma audioLoaded_eq_false_of_not_present (um : Bool) (s : Scene)
    (h : audioPresent s = false) : audioLoaded um s = false := by
  rcases s with ⟨img, _ | a⟩
  · simp [audioLoaded]
  · simp only [audioPresent] at h
    simp [audioLoaded, h]

/-- Forward computation of a successful moviepy build whose first write
attempt succeeds, from a successful scene loop. -/
lemma build_video_moviepy_ok (v2 v1 ff : Bool) (scenes : List Scene) (p : BuildParams)
    (w2 w3 : Option String) (ts : List TimingEntry) (ats : List ℚ) (total : ℚ)
    (hum : (v2 || v1) = true) (hne : scenes ≠ [])
    (hloop : sceneLoop (v2 || v1) p.crossfade_sec p.min_scene_seconds p.head_pad p.tail_pad
      scenes 0 0 = .ok (ts, ats, total)) :
    build_video v2 v1 ff scenes p none w2 w3 =
      .ok { backend := if v2 then .primaryV2 else .primaryV1,
            timings := ts, duration := total,
            finalAudio :=
              if ats.isEmpty then .silent
              else if p.bg_music_supplied && p.bg_music_exists then .narrationWithMusic
              else .narrationOnly,
            bgMusicOpened := !ats.isEmpty && (p.bg_music_supplied && p.bg_music_exists),
            writeAttemptUsed := 1, writeAttemptsMade := 1 } := by
  have hne' : scenes.isEmpty = false := by
    rcases scenes with _ | ⟨s, rest⟩
    · exact absurd rfl hne
    · rfl
  rw [hum] at hloop
  simp only [build_video, hum, hloop, if_true, hne', Bool.false_eq_true, if_false,
    write_videofile_ladder]

/-! ## Claim C1 -/

/-- Claim C1 counterexample: on the spec's concrete 3-scene scenario the
code's scene starts are 0, 4.0, 6.7 (not 0, 4.3, 7.0) and the returned
total duration is 12.7 (not 13.0): line 213 subtracts the crossfade after
every scene, the first and the last included. -/
theorem C1_counterexample :
    build_video true false false c1Scenes c1Params none none none = .ok c1Ok ∧
    c1Ok.timings.map TimingEntry.start = [0, 4, 67/10] ∧
    c1Ok.timings.map TimingEntry.start ≠ [0, 43/10, 7] ∧
    c1Ok.duration = 127/10 ∧ c1Ok.duration ≠ 13 := by
  refine ⟨?_, by norm_num [c1Ok], by norm_num [c1Ok], by norm_num [c1Ok], by norm_num [c1Ok]⟩
  norm_num [build_video, sceneLoop, write_videofile_ladder, _estimate_scene_duration,
    _get_audio_duration_seconds, audioPresent, audioLoaded, c1Scenes, c1Params,
    audioMeasured, c1Ok]

/-- Claim C1 (amended): for every successful build, scene i's start offset
equals d_1 + ... + d_(i-1) minus c*(i-1) — the crossfade step is subtracted
once per preceding scene, the first scene's advance included — and the
total duration returned equals sum(d_i) when c = 0 and sum(d_i) - c*N when
c > 0 (one crossfade step is also subtracted after the last scene); on the
spec's 3-scene scenario the starts are 0, 4.0, 6.7 and the total is 12.7. -/
theorem C1_offsets_and_total (v2 v1 ff : Bool) (scenes : List Scene) (p : BuildParams)
    (w1 w2 w3 : Option String) (r : BuildResult)
    (hb : build_video v2 v1 ff scenes p w1 w2 w3 = .ok r) :
    (∀ (i : ℕ) (hi : i < r.timings.length),
      (r.timings.get ⟨i, hi⟩).start =
        ((scenes.take i).map fun s =>
          _estimate_scene_duration s.audio p.min_scene_seconds p.head_pad p.tail_pad).sum
          - (if 0 < p.crossfade_sec then p.crossfade_sec else 0) * i) ∧
    r.duration =
      (scenes.map fun s =>
        _estimate_scene_duration s.audio p.min_scene_seconds p.head_pad p.tail_pad).sum
        - (if 0 < p.crossfade_sec then p.crossfade_sec else 0) * scenes.length := by
  obtain ⟨⟨ats, hloop⟩, -⟩ := build_video_ok_inv v2 v1 ff scenes p w1 w2 w3 r hb
  constructor
  · intro i hi
    have h := sceneLoop_get_start (v2 || v1) p.crossfade_sec p.min_scene_seconds
      p.head_pad p.tail_pad scenes 0 0 r.timings ats r.duration hloop i hi
    rw [h]
    ring
  · have h := sceneLoop_total (v2 || v1) p.crossfade_sec p.min_scene_seconds
      p.head_pad p.tail_pad scenes 0 0 r.timings ats r.duration hloop
    rw [h]
    ring

/-- Witness for the amended C1 on the spec's concrete scenario. -/
theorem C1_offsets_and_total_witness :
    (c1Ok.timings.get ⟨2, by norm_num [c1Ok]⟩).start = 67/10 ∧ c1Ok.duration = 127/10 := by
  have hb : build_video true false false c1Scenes c1Params none none none = .ok c1Ok := by
    norm_num [build_video, sceneLoop, write_videofile_ladder, _estimate_scene_duration,
      _get_audio_duration_seconds, audioPresent, audioLoaded, c1Scenes, c1Params,
      audioMeasured, c1Ok]
  have h := C1_offsets_and_total true false false c1Scenes c1Params none none none c1Ok hb
  refine ⟨(h.1 2 (by norm_num [c1Ok])).trans ?_, h.2.trans ?_⟩
  · norm_num [c1Scenes, c1Params, _estimate_scene_duration, _get_audio_duration_seconds,
      audioMeasured]
  · norm_num [c1Scenes, c1Params, _estimate_scene_duration, _get_audio_duration_seconds,
      audioMeasured]

/-! ## Claim C2 -/

/-- Claim C2 counterexample: on a moviepy backend a scene list whose second
scene's image does not exist makes build_video raise (every ImageClip
fallback fails, lines 122-131) instead of skipping the scene; no manifest
is returned at all. -/
theorem C2_counterexample :
    build_video true false false missingImageScenes c1Params none none none =
      .error (.imageClipFailed 2) := by
  norm_num [build_video, sceneLoop, _estimate_scene_duration, audioPresent, audioLoaded,
    missingImageScenes, c1Params]

/-- Claim C2 (amended): a scene whose image asset path does not exist is
not skipped: on the moviepy backends the build is aborted by that scene
with an image-clip failure, and no timeline manifest is returned. -/
theorem C2_missing_image_aborts (v2 v1 ff : Bool) (scenes : List Scene) (p : BuildParams)
    (w1 w2 w3 : Option String)
    (hum : (v2 || v1) = true)
    (hmiss : ∃ s ∈ scenes, s.imageExists = false) :
    ∃ n, build_video v2 v1 ff scenes p w1 w2 w3 = .error (.imageClipFailed n) := by
  obtain ⟨n, hn⟩ := sceneLoop_error_of_missing (v2 || v1) p.crossfade_sec p.min_scene_seconds
    p.head_pad p.tail_pad hum scenes hmiss 0 0
  exact ⟨n, by simp [build_video, hn]⟩

/-- Witness for the amended C2. -/
theorem C2_missing_image_aborts_witness :
    ∃ n, build_video true false false missingImageScenes c1Params none none none =
      .error (.imageClipFailed n) :=
  C2_missing_image_aborts true false false missingImageScenes c1Params none none none rfl
    ⟨{ imageExists := false, audio := none }, by norm_num [missingImageScenes], rfl⟩

/-! ## Claim C5 -/

/-- Claim C5 counterexample: with crossfadeSeconds = 2 exceeding each
scene's duration 1 (minSceneSeconds = 1, no audio), the second timing
entry's start offset is -1, which is negative. -/
theorem C5_counterexample :
    (build_video true false false twoSilentScenes bigCrossfadeParams none none none).toOption.map
      (fun r => r.timings.map TimingEntry.start) = some [0, -1] ∧ (-1 : ℚ) < 0 := by
  constructor
  · norm_num [build_video, sceneLoop, write_videofile_ladder, _estimate_scene_duration,
      _get_audio_duration_seconds, audioPresent, audioLoaded, twoSilentScenes,
      bigCrossfadeParams, Except.toOption]
  · norm_num

/-- Claim C5 (amended): for every build invocation whose parameters satisfy
the data-model constraints (crossfadeSeconds >= 0, minSceneSeconds > 0,
headPad and tailPad >= 0), every timing entry satisfies
end = start + duration exactly and has a non-negative duration; start and
end are also non-negative provided crossfadeSeconds does not exceed
minSceneSeconds — when crossfadeSeconds exceeds a scene's duration the
start and end offsets can go negative. -/
theorem C5_timing_entry_invariants (v2 v1 ff : Bool) (scenes : List Scene) (p : BuildParams)
    (w1 w2 w3 : Option String) (r : BuildResult)
    (hcf0 : 0 ≤ p.crossfade_sec) (hmin : 0 < p.min_scene_seconds)
    (hhp : 0 ≤ p.head_pad) (htp : 0 ≤ p.tail_pad)
    (hb : build_video v2 v1 ff scenes p w1 w2 w3 = .ok r) :
    ∀ e ∈ r.timings,
      e.endTime = e.start + e.duration ∧ 0 ≤ e.duration ∧
      (p.crossfade_sec ≤ p.min_scene_seconds → 0 ≤ e.start ∧ 0 ≤ e.endTime) := by
  obtain ⟨⟨ats, hloop⟩, -⟩ := build_video_ok_inv v2 v1 ff scenes p w1 w2 w3 r hb
  intro e he
  have h := sceneLoop_mem (v2 || v1) p.crossfade_sec p.min_scene_seconds
    p.head_pad p.tail_pad scenes 0 0 r.timings ats r.duration hloop e he
  have h1 := h.1
  have h2 := h.2.1
  refine ⟨h1, by linarith, fun hcf => ?_⟩
  have hcs : (if 0 < p.crossfade_sec then p.crossfade_sec else 0) ≤ p.min_scene_seconds := by
    split
    · exact hcf
    · linarith
  have h3 := h.2.2 hcs
  exact ⟨h3, by rw [h1]; linarith⟩

/-- Witness for the amended C5 on the spec's concrete scenario. -/
theorem C5_timing_entry_invariants_witness :
    ({ scene := 2, start := 4, endTime := 7, duration := 3, imageExists := true,
       audioPresent := false } : TimingEntry).endTime = 4 + 3 ∧
    (0 : ℚ) ≤ 3 ∧ (0 : ℚ) ≤ 4 := by
  have hb : build_video true false false c1Scenes c1Params none none none = .ok c1Ok := by
    norm_num [build_video, sceneLoop, write_videofile_ladder, _estimate_scene_duration,
      _get_audio_duration_seconds, audioPresent, audioLoaded, c1Scenes, c1Params,
      audioMeasured, c1Ok]
  have h := C5_timing_entry_invariants true false false c1Scenes c1Params none none none c1Ok
    (by norm_num [c1Params]) (by norm_num [c1Params]) (by norm_num [c1Params])
    (by norm_num [c1Params]) hb
    { scene := 2, start := 4, endTime := 7, duration := 3, imageExists := true,
      audioPresent := false }
    (by norm_num [c1Ok])
  exact ⟨h.1, h.2.1, (h.2.2 (by norm_num [c1Params])).1⟩

/-! ## Claim C6 -/

/-- Claim C6: backend selection follows the fixed order moviepy 2.x, then
moviepy 1.x, then the ffmpeg binary on the path; when none of the three is
available the build raises a configuration error — returning no result at
all, so no scene is rendered and no output file is produced. -/
theorem C6_backend_selection (v2 v1 ff : Bool) (scenes : List Scene) (p : BuildParams)
    (w1 w2 w3 : Option String) (r : BuildResult) :
    (build_video v2 v1 ff scenes p w1 w2 w3 = .ok r →
      r.backend = (if v2 then .primaryV2 else if v1 then .primaryV1 else .rawTool)) ∧
    (v2 = false → v1 = false → ff = false →
      build_video v2 v1 ff scenes p w1 w2 w3 = .error .noBackend) := by
  constructor
  · intro hb
    exact (build_video_ok_inv v2 v1 ff scenes p w1 w2 w3 r hb).2
  · intro h2 h1 hf
    subst h2; subst h1; subst hf
    obtain ⟨⟨ts, ats, total⟩, hloop⟩ := sceneLoop_isOk false p.crossfade_sec
      p.min_scene_seconds p.head_pad p.tail_pad scenes (fun s _ => by simp) 0 0
    simp [build_video, hloop]

/-- Witness for C6: moviepy 2.x wins when available; with nothing available
the build fails with the configuration error. -/
theorem C6_backend_selection_witness :
    c1Ok.backend = Backend.primaryV2 ∧
    build_video false false false twoSilentScenes bigCrossfadeParams none none none =
      .error .noBackend := by
  have hb : build_video true false false c1Scenes c1Params none none none = .ok c1Ok := by
    norm_num [build_video, sceneLoop, write_videofile_ladder, _estimate_scene_duration,
      _get_audio_duration_seconds, audioPresent, audioLoaded, c1Scenes, c1Params,
      audioMeasured, c1Ok]
  have h1 := (C6_backend_selection true false false c1Scenes c1Params none none none c1Ok).1 hb
  have h2 := (C6_backend_selection false false false twoSilentScenes bigCrossfadeParams
    none none none c1Ok).2 rfl rfl rfl
  exact ⟨by simpa using h1, h2⟩

/-! ## Claim C7 -/

/-- Claim C7: the final write is attempted with exactly the three parameter
sets in fixed decreasing order of encoding detail, stopping at the first
attempt that does not raise; it raises only when all three attempts fail,
and then the raised message contains the last underlying error. -/
theorem C7_write_ladder_contract (w1 w2 w3 : Option String) :
    ((write_videofile_ladder w1 w2 w3).1 ≤ 3) ∧
    (w1 = none → write_videofile_ladder w1 w2 w3 = (1, .ok 1)) ∧
    (∀ e1, w1 = some e1 → w2 = none → write_videofile_ladder w1 w2 w3 = (2, .ok 2)) ∧
    (∀ e1 e2, w1 = some e1 → w2 = some e2 → w3 = none →
      write_videofile_ladder w1 w2 w3 = (3, .ok 3)) ∧
    (∀ e1 e2 e3, w1 = some e1 → w2 = some e2 → w3 = some e3 →
      write_videofile_ladder w1 w2 w3 =
        (3, .error ("All video write attempts failed. Last error: " ++ e3))) ∧
    (∀ msg, (write_videofile_ladder w1 w2 w3).2 = .error msg →
      ∃ e1 e2 e3, w1 = some e1 ∧ w2 = some e2 ∧ w3 = some e3 ∧
        msg = "All video write attempts failed. Last error: " ++ e3) := by
  rcases w1 with _ | e1 <;> rcases w2 with _ | e2 <;> rcases w3 with _ | e3 <;>
    simp [write_videofile_ladder]

/-- Witness for C7: a full failure run and a first-attempt success. -/
theorem C7_write_ladder_contract_witness :
    write_videofile_ladder (some "disk full") (some "codec") (some "broken pipe") =
      (3, .error ("All video write attempts failed. Last error: " ++ "broken pipe")) ∧
    write_videofile_ladder none (some "codec") (some "broken pipe") = (1, .ok 1) :=
  ⟨(C7_write_ladder_contract (some "disk full") (some "codec")
      (some "broken pipe")).2.2.2.2.1 "disk full" "codec" "broken pipe" rfl rfl rfl,
   (C7_write_ladder_contract none (some "codec") (some "broken pipe")).2.1 rfl⟩

/-! ## Claim C8 -/

/-- Claim C8: when no scene has an existing audio asset (and the build does
not fail for some unrelated reason: a moviepy backend is present, every
image exists, the scene list is non-empty and the first write attempt
succeeds), the build completes successfully, the audio-composition step is
bypassed, and the output is a silent visual-only video. -/
theorem C8_silent_build (v2 v1 ff : Bool) (scenes : List Scene) (p : BuildParams)
    (w2 w3 : Option String)
    (hum : (v2 || v1) = true) (hne : scenes ≠ [])
    (himg : ∀ s ∈ scenes, s.imageExists = true)
    (haud : ∀ s ∈ scenes, audioPresent s = false) :
    ∃ r, build_video v2 v1 ff scenes p none w2 w3 = .ok r ∧
      r.finalAudio = .silent ∧ r.bgMusicOpened = false := by
  obtain ⟨⟨ts, ats, total⟩, hloop⟩ := sceneLoop_isOk (v2 || v1) p.crossfade_sec
    p.min_scene_seconds p.head_pad p.tail_pad scenes
    (fun s hs => by simp [himg s hs]) 0 0
  have hats : ats = [] := sceneLoop_tracks_nil (v2 || v1) p.crossfade_sec
    p.min_scene_seconds p.head_pad p.tail_pad scenes 0 0 ts ats total hloop
    (fun s hs => audioLoaded_eq_false_of_not_present (v2 || v1) s (haud s hs))
  subst hats
  refine ⟨_, build_video_moviepy_ok v2 v1 ff scenes p w2 w3 ts [] total hum hne hloop, ?_, ?_⟩
  · simp
  · simp

/-- Witness for C8: two scenes, one with no audio entry and one whose audio
path does not exist. -/
theorem C8_silent_build_witness :
    ∃ r, build_video true false false noAudioScenes c1Params none none none = .ok r ∧
      r.finalAudio = .silent ∧ r.bgMusicOpened = false :=
  C8_silent_build true false false noAudioScenes c1Params none none rfl
    (by simp [noAudioScenes]) (by simp [noAudioScenes])
    (by simp [noAudioScenes, audioPresent])

/-! ## Claim C10 -/

/-- Claim C10: background music is mixed in only when at least one
narration clip was successfully loaded: when bg_music_path is supplied and
readable but no scene contributes a narration track, the background music
is never opened and the final video carries no audio track at all. -/
theorem C10_bg_music_requires_narration (v2 v1 ff : Bool) (scenes : List Scene)
    (p : BuildParams) (w2 w3 : Option String)
    (hum : (v2 || v1) = true) (hne : scenes ≠ [])
    (himg : ∀ s ∈ scenes, s.imageExists = true)
    (hload : ∀ s ∈ scenes, audioLoaded (v2 || v1) s = false)
    (hbg : p.bg_music_supplied = true) (hbg2 : p.bg_music_exists = true) :
    ∃ r, build_video v2 v1 ff scenes p none w2 w3 = .ok r ∧
      r.bgMusicOpened = false ∧ r.finalAudio = .silent := by
  obtain ⟨⟨ts, ats, total⟩, hloop⟩ := sceneLoop_isOk (v2 || v1) p.crossfade_sec
    p.min_scene_seconds p.head_pad p.tail_pad scenes
    (fun s hs => by simp [himg s hs]) 0 0
  have hats : ats = [] := sceneLoop_tracks_nil (v2 || v1) p.crossfade_sec
    p.min_scene_seconds p.head_pad p.tail_pad scenes 0 0 ts ats total hloop
    (fun s hs => hload s hs)
  subst hats
  refine ⟨_, build_video_moviepy_ok v2 v1 ff scenes p w2 w3 ts [] total hum hne hloop, ?_, ?_⟩
  · simp
  · simp

/-- Witness for C10: one scene whose narration exists and measures 5s but
fails to load, with a readable background-music file supplied. -/
theorem C10_bg_music_requires_narration_witness :
    ∃ r, build_video true false false loadFailScenes bgMusicParams none none none = .ok r ∧
      r.bgMusicOpened = false ∧ r.finalAudio = .silent :=
  C10_bg_music_requires_narration true false false loadFailScenes bgMusicParams none none rfl
    (by simp [loadFailScenes]) (by simp [loadFailScenes])
    (by simp [loadFailScenes, audioLoaded]) rfl rfl

/-! ## Claim C9 -/

/-- Claim C9: with panDirection auto, the pan direction is a pure function
of sceneIndex mod 4 — indices congruent mod 4 get the identical direction,
and any four consecutive indices get the four distinct directions left,
right, up, down exactly once each. -/
theorem C9_auto_pan_determinism (i j n : ℕ) (hij : i % 4 = j % 4) :
    autoPanDirection i = autoPanDirection j ∧
    [autoPanDirection n, autoPanDirection (n + 1), autoPanDirection (n + 2),
      autoPanDirection (n + 3)].Perm
      [PanDirection.left, PanDirection.right, PanDirection.up, PanDirection.down] := by
  constructor
  · unfold autoPanDirection
    rw [hij]
  · have h4 : n % 4 = 0 ∨ n % 4 = 1 ∨ n % 4 = 2 ∨ n % 4 = 3 := by omega
    rcases h4 with h | h | h | h
    · have h1 : (n + 1) % 4 = 1 := by omega
      have h2 : (n + 2) % 4 = 2 := by omega
      have h3 : (n + 3) % 4 = 3 := by omega
      simp only [autoPanDirection, h, h1, h2, h3]
      decide
    · have h1 : (n + 1) % 4 = 2 := by omega
      have h2 : (n + 2) % 4 = 3 := by omega
      have h3 : (n + 3) % 4 = 0 := by omega
      simp only [autoPanDirection, h, h1, h2, h3]
      decide
    · have h1 : (n + 1) % 4 = 3 := by omega
      have h2 : (n + 2) % 4 = 0 := by omega
      have h3 : (n + 3) % 4 = 1 := by omega
      simp only [autoPanDirection, h, h1, h2, h3]
      decide
    · have h1 : (n + 1) % 4 = 0 := by omega
      have h2 : (n + 2) % 4 = 1 := by omega
      have h3 : (n + 3) % 4 = 2 := by omega
      simp only [autoPanDirection, h, h1, h2, h3]
      decide

/-- Witness for C9 at scene indices 2, 6 and the run 5, 6, 7, 8. -/
theorem C9_auto_pan_determinism_witness :
    autoPanDirection 2 = autoPanDirection 6 ∧
    [autoPanDirection 5, autoPanDirection (5 + 1), autoPanDirection (5 + 2),
      autoPanDirection (5 + 3)].Perm
      [PanDirection.left, PanDirection.right, PanDirection.up, PanDirection.down] :=
  C9_auto_pan_determinism 2 6 5 (by norm_num)

end VideoEditor

